import Mathlib

/-!
Verification development for the Barricade endpoint triage engine.

Shallow embedding of the core subsystem: the classifier
(src/services/threatDetector.ts), the quarantine/vault store, shred
engine, forensic scanner (src/electron/main.cjs) and the sentry
scheduler (src/App.tsx). Definitions are translated from the source
files; theorems settle the frozen claims about them.
-/

/- ============ String / list helpers mirroring JS primitives ============ -/

/-- ASCII lowering of one character, modelling String.prototype.toLowerCase
on the ASCII subset (all pattern literals in the source are ASCII). -/
def lowerChar (c : Char) : Char :=
  if 65 ≤ c.toNat ∧ c.toNat ≤ 90 then Char.ofNat (c.toNat + 32) else c

/-- Lower-cased character list of a string. -/
def toLowerL (s : String) : List Char := s.data.map lowerChar

/-- Occurrence of pat as a contiguous sublist of l starting at some index. -/
def occursIn (pat l : List Char) : Bool :=
  (List.range (l.length + 1)).any fun i => pat.isPrefixOf (l.drop i)

/-- JS String.prototype.includes on a char list: pat occurs as a
contiguous substring. -/
def lcontains (l : List Char) (pat : String) : Bool :=
  occursIn pat.data l

/-- JS String.prototype.endsWith on a char list. -/
def lendsWith (l : List Char) (pat : String) : Bool :=
  pat.data.isSuffixOf l

/-- Matcher for the regex form p1.?p2 (p1, then zero or one arbitrary
character, then p2), unanchored, as used by screen.?cap, social.?security,
credit.?card, pin.?code, private.?key and secret.?key in the source. -/
def dotOptMatch (l : List Char) (p1 p2 : String) : Bool :=
  (List.range (l.length + 1)).any fun i =>
    p1.data.isPrefixOf (l.drop i) &&
      (p2.data.isPrefixOf (l.drop (i + p1.length)) ||
       p2.data.isPrefixOf (l.drop (i + p1.length + 1)))

/-- Remainder of l strictly after the first occurrence of pat, if any. -/
def afterFirst (l : List Char) (pat : String) : Option (List Char) :=
  match l with
  | [] => if pat.data.isPrefixOf ([] : List Char) then some [] else none
  | c :: t =>
    if pat.data.isPrefixOf (c :: t) then some ((c :: t).drop pat.length)
    else afterFirst t pat

/-- Matcher for the regex form p1.*p2 (p1 somewhere, then p2 anywhere
later), as used by setup.*crack in the source. -/
def gapMatch (l : List Char) (p1 p2 : String) : Bool :=
  match afterFirst l p1 with
  | some rest => occursIn p2.data rest
  | none => false

/-- Matcher for the regex form lit.*\.exe$ (literal lit somewhere, and the
string ends with .exe strictly after it), as used by temp.*\.exe and the
suspicious-location patterns in the source. -/
def litThenExeEnd (l : List Char) (lit : String) : Bool :=
  lendsWith l ".exe" && lcontains (l.take (l.length - 4)) lit

/- ============ Classifier: src/services/threatDetector.ts ============ -/

inductive ThreatLevel
  | safe
  | suspicious
  | malicious
deriving DecidableEq, Repr

inductive PrivacyLevel
  | public
  | sensitive
  | critical
deriving DecidableEq, Repr

/-- FileRecord from src types: a classified descriptor of one filesystem
entry. Optional UI-only fields (category, version, lastOpened) are
omitted; folder is kept as its string value. -/
structure FileItem where
  id : String
  name : String
  path : String
  size : Nat
  extension : String
  type : String
  lastModified : String
  folder : String
  threatLevel : ThreatLevel
  privacyLevel : PrivacyLevel
  threatType : Option String
  tags : List String
deriving DecidableEq, Repr

/-- MALICIOUS_PATTERNS: each regex /a|b|.../i is the list of its literal
alternatives, tested as case-insensitive substrings. -/
def MALICIOUS_PATTERNS : List (List String) :=
  [["trojan", "malware", "virus", "ransomware", "worm"],
   ["cryptolocker", "wannacry", "petya", "locky"],
   ["keylog", "spyware", "adware", "rootkit"],
   ["fakealert", "rogue", "scareware"]]

/-- True when the file name matches one of the MALICIOUS_PATTERNS regexes. -/
def matchesMaliciousName (name : String) : Bool :=
  MALICIOUS_PATTERNS.any fun alts => alts.any fun p => lcontains (toLowerL name) p

/-- SUSPICIOUS_PATTERNS test on the lower-cased name: piracy tools,
hacking tools, double extensions, dangerous extensions, temp executables,
cracked installers. -/
def matchesSuspiciousName (lname : List Char) : Bool :=
  (["crack", "keygen", "patch", "activator", "loader"].any fun p => lcontains lname p) ||
  (["hack", "cheat", "exploit", "bypass"].any fun p => lcontains lname p) ||
  (lendsWith lname ".exe.txt" || lendsWith lname ".pdf.exe" || lendsWith lname ".doc.exe") ||
  (lendsWith lname ".scr" || lendsWith lname ".pif" || lendsWith lname ".com") ||
  litThenExeEnd lname "temp" ||
  gapMatch lname "setup" "crack"

/-- SUSPICIOUS_LOCATIONS: the literal directory fragment of each
\\...\\.*\.exe$ regex. -/
def SUSPICIOUS_LOCATIONS : List String :=
  ["\\appdata\\local\\temp\\", "\\temp\\", "\\programdata\\", "\\users\\public\\"]

/-- True when the lower-cased full path matches one of the
SUSPICIOUS_LOCATIONS regexes. -/
def matchesSuspiciousLocation (lpath : List Char) : Bool :=
  SUSPICIOUS_LOCATIONS.any fun lit => litThenExeEnd lpath lit

/-- analyzeThreatLevel from threatDetector.ts: malicious name patterns
first, then suspicious locations for .exe, then suspicious name patterns,
then risky executables under a download path. -/
def analyzeThreatLevel (file : FileItem) : ThreatLevel :=
  let lname := toLowerL file.name
  let lpath := toLowerL file.path
  if matchesMaliciousName file.name then .malicious
  else if file.extension = ".exe" && matchesSuspiciousLocation lpath then .suspicious
  else if matchesSuspiciousName lname then .suspicious
  else if ([".exe", ".msi", ".bat", ".cmd", ".ps1", ".vbs", ".js"].contains
             (String.mk (toLowerL file.extension)) && lcontains lpath "download") then .suspicious
  else .safe

/-- PRIVACY_CRITICAL_PATTERNS test on the lower-cased name. -/
def matchesCriticalName (lname : List Char) : Bool :=
  (["password", "passwd", "credential", "secret"].any fun p => lcontains lname p) ||
  (["apikey", "api_key", "api-key", "token"].any fun p => lcontains lname p) ||
  (lendsWith lname ".kdbx" || lendsWith lname ".key" || lcontains lname "id_rsa" ||
    lendsWith lname ".pem") ||
  (lcontains lname "bank" || lcontains lname "ssn" ||
    dotOptMatch lname "social" "security" || lcontains lname "taxreturn") ||
  (dotOptMatch lname "credit" "card" || lcontains lname "cvv" ||
    dotOptMatch lname "pin" "code") ||
  (dotOptMatch lname "private" "key" || dotOptMatch lname "secret" "key")

/-- PRIVACY_SENSITIVE_PATTERNS test on the lower-cased name. -/
def matchesSensitiveName (lname : List Char) : Bool :=
  (["medical", "health", "insurance", "hipaa"].any fun p => lcontains lname p) ||
  (["legal", "contract", "agreement", "nda"].any fun p => lcontains lname p) ||
  (["payroll", "salary", "compensation", "w2", "1099"].any fun p => lcontains lname p) ||
  (["invoice", "receipt", "statement"].any fun p => lcontains lname p) ||
  (["personal", "private", "confidential"].any fun p => lcontains lname p) ||
  (["backup", "export", "dump"].any fun p => lcontains lname p)

/-- analyzePrivacyLevel from threatDetector.ts. -/
def analyzePrivacyLevel (file : FileItem) : PrivacyLevel :=
  let lname := toLowerL file.name
  if matchesCriticalName lname then .critical
  else if [".pem", ".key", ".pfx", ".p12", ".kdbx", ".keychain"].contains
            (String.mk (toLowerL file.extension)) then .critical
  else if matchesSensitiveName lname then .sensitive
  else if ([".pdf", ".doc", ".docx", ".xls", ".xlsx"].contains
             (String.mk (toLowerL file.extension)) &&
           (lcontains lname "tax" || lcontains lname "financial" ||
             lcontains lname "statement")) then .sensitive
  else .public

/-- generateFileTags from threatDetector.ts; tags are pushed in source
order, modelled as ordered list concatenation. -/
def generateFileTags (file : FileItem) : List String :=
  let lname := toLowerL file.name
  let lext := String.mk (toLowerL file.extension)
  (if file.size > 1024 * 1024 * 100 then ["Large File"] else []) ++
  (if file.size > 1024 * 1024 * 1000 then ["Very Large"] else []) ++
  (if lcontains lname "password" || lcontains lname "credential" then
    ["Contains Credentials"] else []) ++
  (if lcontains lname "bank" || lcontains lname "financial" then
    ["Financial Data"] else []) ++
  (if lcontains lname "screenshot" || dotOptMatch lname "screen" "cap" then
    ["Screenshot"] else []) ++
  (if lcontains lname "backup" || lendsWith lname "bak" then
    ["Backup File"] else []) ++
  (if [".exe", ".msi"].contains lext then ["Executable"] else []) ++
  (if [".zip", ".rar", ".7z", ".tar", ".gz"].contains lext then ["Archive"] else []) ++
  (if lcontains lname "crack" || lcontains lname "keygen" || lcontains lname "patch" then
    ["Potential Piracy Tool"] else []) ++
  (if lcontains lname ".exe." then ["Double Extension"] else [])

/-- getThreatType from threatDetector.ts. The final rule uses the
case-sensitive JS endsWith on the raw name. -/
def getThreatType (file : FileItem) : Option String :=
  let lname := toLowerL file.name
  let lpath := toLowerL file.path
  if matchesMaliciousName file.name then some "Malware:Generic/Suspicious"
  else if lcontains lname "crack" || lcontains lname "keygen" then some "PUP:Win32/Keygen"
  else if lcontains lname ".exe." then some "Trojan:Generic/DoubleExt"
  else if lcontains lpath "temp" && lendsWith file.name.data ".exe" then
    some "Suspicious:Temp/Executable"
  else none

/-- analyzeFiles from threatDetector.ts: enrich every file with the four
classification fields, keeping everything else. -/
def analyzeFiles (files : List FileItem) : List FileItem :=
  files.map fun file =>
    { file with
      threatLevel := analyzeThreatLevel file
      privacyLevel := analyzePrivacyLevel file
      threatType := getThreatType file
      tags := generateFileTags file }

/-- Aggregate security summary record. -/
structure SecuritySummary where
  totalFiles : Nat
  maliciousCount : Nat
  suspiciousCount : Nat
  criticalPrivacyCount : Nat
  sensitivePrivacyCount : Nat
  integrityScore : Int
  status : String
deriving DecidableEq, Repr

/-- getSecuritySummary from threatDetector.ts: counts by level, a
sequentially decremented score clamped to [0, 100], and a status string. -/
def getSecuritySummary (files : List FileItem) : SecuritySummary :=
  let malicious := (files.filter fun f => f.threatLevel = ThreatLevel.malicious).length
  let suspicious := (files.filter fun f => f.threatLevel = ThreatLevel.suspicious).length
  let critical := (files.filter fun f => f.privacyLevel = PrivacyLevel.critical).length
  let sensitive := (files.filter fun f => f.privacyLevel = PrivacyLevel.sensitive).length
  let score : Int := 100 - malicious * 25 - suspicious * 5 - critical * 10 - sensitive * 2
  { totalFiles := files.length
    maliciousCount := malicious
    suspiciousCount := suspicious
    criticalPrivacyCount := critical
    sensitivePrivacyCount := sensitive
    integrityScore := max 0 (min 100 score)
    status := if malicious > 0 then "alert" else if suspicious > 0 then "warning" else "protected" }

/- ============ Quarantine/Vault store and shred: src/electron/main.cjs ============ -/

/-- Metadata sidecar record written next to a stored file. The source
field quarantinedAt / vaultedAt is modelled uniformly as placedAt. -/
structure MetaRecord where
  originalPath : String
  originalName : String
  placedAt : Nat
  reason : String
  sha256 : String
deriving DecidableEq, Repr

/-- Content of one file in the model: raw bytes, or a parsed metadata
sidecar (the JSON the source writes and reads back). -/
inductive FileData
  | bytes (content : List Nat)
  | meta (md : MetaRecord)
deriving DecidableEq, Repr

/-- The filesystem: a partial map from absolute path to file content. -/
def FS : Type := String → Option FileData

/-- writeFileSync: create or overwrite the file at p. -/
def fsWrite (fs : FS) (p : String) (d : FileData) : FS :=
  fun q => if q = p then some d else fs q

/-- unlinkSync: remove the file at p. -/
def fsRemove (fs : FS) (p : String) : FS :=
  fun q => if q = p then none else fs q

/-- Observable filesystem operations, recorded in order for the
ordering-sensitive claims. -/
inductive FsEvent
  | hashEv (p : String)
  | renameEv (src dst : String)
  | writeMetaEv (p : String)
  | writeBytesEv (p : String) (buf : List Nat)
  | unlinkEv (p : String)
deriving DecidableEq, Repr

/-- The managed quarantine holding directory (app.getPath userData joined
with Quarantine). -/
def quarantineDir : String := "userData/Quarantine"

/-- The managed vault holding directory. -/
def vaultDir : String := "userData/Vault"

/-- path.basename on POSIX separators: the component after the last slash. -/
def basename (p : String) : String :=
  (p.splitOn "/").getLastD p

/-- Destination path of the fs:quarantine handler:
quarantineDir/{timestamp}_{fileName}.quarantined. -/
def quarantinedPathOf (filePath : String) (ts : Nat) : String :=
  quarantineDir ++ "/" ++ toString ts ++ "_" ++ basename filePath ++ ".quarantined"

/-- Destination path of the fs:vault handler:
vaultDir/{timestamp}_{fileName}.vault. -/
def vaultedPathOf (filePath : String) (ts : Nat) : String :=
  vaultDir ++ "/" ++ toString ts ++ "_" ++ basename filePath ++ ".vault"

/-- fs:quarantine handler. The digest (getFileHash) is computed while
building the metadata object, before renameSync and before the metadata
writeFileSync; a digest failure (modelled as the file being unreadable,
i.e. absent) aborts with the error result and no filesystem mutation.
hash stands for the streamed sha256 of the file content. Returns
(result, final filesystem, ordered event trace). -/
def quarantineFs (hash : FileData → String) (fs : FS) (filePath reason : String)
    (ts : Nat) : Except String String × FS × List FsEvent :=
  let qPath := quarantinedPathOf filePath ts
  match fs filePath with
  | none => (.error "hash failed", fs, [FsEvent.hashEv filePath])
  | some d =>
    let md : MetaRecord :=
      { originalPath := filePath, originalName := basename filePath,
        placedAt := ts, reason := reason, sha256 := hash d }
    let fs1 := fsWrite (fsRemove fs filePath) qPath d
    let metaPath := qPath ++ ".meta.json"
    let fs2 := fsWrite fs1 metaPath (FileData.meta md)
    (.ok qPath, fs2,
      [FsEvent.hashEv filePath, FsEvent.renameEv filePath qPath, FsEvent.writeMetaEv metaPath])

/-- fs:vault handler, identical to fs:quarantine up to holding directory
and stored-name suffix. -/
def vaultFs (hash : FileData → String) (fs : FS) (filePath reason : String)
    (ts : Nat) : Except String String × FS × List FsEvent :=
  let vPath := vaultedPathOf filePath ts
  match fs filePath with
  | none => (.error "hash failed", fs, [FsEvent.hashEv filePath])
  | some d =>
    let md : MetaRecord :=
      { originalPath := filePath, originalName := basename filePath,
        placedAt := ts, reason := reason, sha256 := hash d }
    let fs1 := fsWrite (fsRemove fs filePath) vPath d
    let metaPath := vPath ++ ".meta.json"
    let fs2 := fsWrite fs1 metaPath (FileData.meta md)
    (.ok vPath, fs2,
      [FsEvent.hashEv filePath, FsEvent.renameEv filePath vPath, FsEvent.writeMetaEv metaPath])

/-- fs:restore handler (fs:unvault is the same logic): read the sidecar,
rename the stored content back to the original path, delete the sidecar. -/
def restoreFs (fs : FS) (storedPath : String) : Except String String × FS × List FsEvent :=
  let metaPath := storedPath ++ ".meta.json"
  match fs metaPath with
  | some (FileData.meta md) =>
    match fs storedPath with
    | some d =>
      let fs1 := fsWrite (fsRemove fs storedPath) md.originalPath d
      let fs2 := fsRemove fs1 metaPath
      (.ok md.originalPath, fs2,
        [FsEvent.renameEv storedPath md.originalPath, FsEvent.unlinkEv metaPath])
    | none => (.error "rename failed", fs, [])
  | _ => (.error "metadata read failed", fs, [])

/-- fs:shred handler: stat the size, then three writeFileSync passes of
crypto.randomBytes(size), then unlinkSync. rng models the random source:
rng pass n is the buffer randomBytes returns for the given pass when
asked for n bytes. -/
def shredFs (rng : Nat → Nat → List Nat) (fs : FS) (filePath : String) :
    Except String Unit × FS × List FsEvent :=
  match fs filePath with
  | some (FileData.bytes content) =>
    let size := content.length
    let st := (List.range 3).foldl
      (fun (st : FS × List FsEvent) pass =>
        (fsWrite st.1 filePath (FileData.bytes (rng pass size)),
         st.2 ++ [FsEvent.writeBytesEv filePath (rng pass size)]))
      (fs, [])
    (.ok (), fsRemove st.1 filePath, st.2 ++ [FsEvent.unlinkEv filePath])
  | _ => (.error "stat failed", fs, [])

/-- fs:list-quarantine handler over a directory listing: skip sidecars,
keep only names ending in .quarantined, and surface a name only when its
paired sidecar exists in the same directory (existsSync). Returns the
surfaced stored-content file names. -/
def listQuarantine (dir : List String) : List String :=
  dir.filter fun f =>
    !(lendsWith f.data ".meta.json") && lendsWith f.data ".quarantined" &&
      dir.contains (f ++ ".meta.json")

/-- fs:list-vault handler, same logic with the .vault suffix. -/
def listVault (dir : List String) : List String :=
  dir.filter fun f =>
    !(lendsWith f.data ".meta.json") && lendsWith f.data ".vault" &&
      dir.contains (f ++ ".meta.json")

/- ============ Forensic scanner: fs:deep-scan in src/electron/main.cjs ============ -/

/-- Shannon entropy of the byte-value histogram, exactly as computed by
the handler: for each of the 256 byte values with nonzero count the term
p * log2 p with p = count / length is subtracted from zero. -/
noncomputable def scanEntropy (buffer : List Nat) : ℝ :=
  -(Finset.sum (Finset.range 256) fun b =>
      if 0 < buffer.count b then
        ((buffer.count b : ℝ) / buffer.length) *
          Real.logb 2 ((buffer.count b : ℝ) / buffer.length)
      else 0)

/-- Index of the last occurrence of pat as a contiguous sublist of l
(Buffer.prototype.lastIndexOf; none stands for the -1 result). -/
def lastOccurrence (l pat : List Nat) : Option Nat :=
  ((List.range (l.length + 1)).filter fun i => pat.isPrefixOf (l.drop i)).max?

/-- Decode one UTF-8 scalar starting at lead byte b with the following
bytes rest: the decoded character and how many continuation bytes were
consumed; malformed input yields U+FFFD and consumes nothing, so decoding
resynchronises at the next byte (Buffer.prototype.toString semantics). -/
def utf8Step (b : Nat) (rest : List Nat) : Char × Nat :=
  if b < 0x80 then (Char.ofNat b, 0)
  else if 0xC2 ≤ b ∧ b ≤ 0xDF then
    match rest with
    | c1 :: _ =>
      if 0x80 ≤ c1 ∧ c1 ≤ 0xBF then
        (Char.ofNat ((b - 0xC0) * 0x40 + (c1 - 0x80)), 1)
      else (Char.ofNat 0xFFFD, 0)
    | [] => (Char.ofNat 0xFFFD, 0)
  else if 0xE0 ≤ b ∧ b ≤ 0xEF then
    match rest with
    | c1 :: c2 :: _ =>
      let cp := (b - 0xE0) * 0x1000 + (c1 - 0x80) * 0x40 + (c2 - 0x80)
      if 0x80 ≤ c1 ∧ c1 ≤ 0xBF ∧ 0x80 ≤ c2 ∧ c2 ≤ 0xBF ∧ 0x800 ≤ cp ∧
          ¬(0xD800 ≤ cp ∧ cp ≤ 0xDFFF) then
        (Char.ofNat cp, 2)
      else (Char.ofNat 0xFFFD, 0)
    | _ => (Char.ofNat 0xFFFD, 0)
  else if 0xF0 ≤ b ∧ b ≤ 0xF4 then
    match rest with
    | c1 :: c2 :: c3 :: _ =>
      let cp := (b - 0xF0) * 0x40000 + (c1 - 0x80) * 0x1000 +
        (c2 - 0x80) * 0x40 + (c3 - 0x80)
      if 0x80 ≤ c1 ∧ c1 ≤ 0xBF ∧ 0x80 ≤ c2 ∧ c2 ≤ 0xBF ∧ 0x80 ≤ c3 ∧ c3 ≤ 0xBF ∧
          0x10000 ≤ cp ∧ cp ≤ 0x10FFFF then
        (Char.ofNat cp, 3)
      else (Char.ofNat 0xFFFD, 0)
    | _ => (Char.ofNat 0xFFFD, 0)
  else (Char.ofNat 0xFFFD, 0)

/-- Decode a whole byte buffer like Buffer.prototype.toString with utf8
encoding, one scalar at a time. -/
def utf8Decode : List Nat → List Char
  | [] => []
  | b :: rest =>
    (utf8Step b rest).1 :: utf8Decode (rest.drop (utf8Step b rest).2)
termination_by l => l.length
decreasing_by
  simp only [List.length_cons, List.length_drop]
  omega

/-- The fixed suspicious substrings scanned for in the decoded buffer. -/
def suspiciousStrings : List String :=
  ["powershell", "cmd.exe", "http://", "https://", "/tmp/", "eval(", "base64"]

/-- Finding text for the JPEG trailing-data rule, naming the byte count. -/
def jpegTrailerMsg (n : Nat) : String :=
  "Steganography Marker: " ++ toString n ++ " bytes of hidden data found after image end."

/-- Finding text for a suspicious-string hit. -/
def stringHitMsg (s : String) : String :=
  "Malicious Marker: Suspicious string \"" ++ s ++ "\" found in binary."

/-- One iteration of the suspicious-string loop: on a hit, append the
finding and set the level to malicious. -/
def stringScanStep (text : List Char) (st : List String × ThreatLevel) (s : String) :
    List String × ThreatLevel :=
  if lcontains text s then (st.1 ++ [stringHitMsg s], ThreatLevel.malicious) else st

/-- Report returned by a successful fs:deep-scan invocation. -/
structure ForensicReport where
  findings : List String
  threatLevel : ThreatLevel
  entropy : ℝ

section
open Classical

/-- fs:deep-scan handler on an in-memory buffer (the handler rejects
files over 10MB and then reads the whole file; ext is the lower-cased
path.extname of the scanned path). Entropy rule, JPEG and PNG trailing
data rules, then the suspicious-string scan, each appending findings and
raising the level exactly as the source assigns it. -/
noncomputable def deepScan (ext : String) (buffer : List Nat) : ForensicReport :=
  let entropy := scanEntropy buffer
  let st0 : List String × ThreatLevel :=
    if entropy > 7.5 then
      (["Abnormal High Entropy: Potential encrypted payload detected."], .suspicious)
    else ([], .safe)
  let st1 :=
    if ext = ".jpg" ∨ ext = ".jpeg" then
      match lastOccurrence buffer [0xFF, 0xD9] with
      | some i =>
        if i + 2 < buffer.length then
          (st0.1 ++ [jpegTrailerMsg (buffer.length - i - 2)], ThreatLevel.malicious)
        else st0
      | none => st0
    else st0
  let st2 :=
    if ext = ".png" then
      match lastOccurrence buffer [0x49, 0x45, 0x4E, 0x44] with
      | some i =>
        if i + 8 < buffer.length then
          (st1.1 ++ ["Steganography Marker: Data detected after IEND chunk."],
            ThreatLevel.malicious)
        else st1
      | none => st1
    else st1
  let text := utf8Decode buffer
  let st3 := suspiciousStrings.foldl (stringScanStep text) st2
  { findings := st3.1, threatLevel := st3.2, entropy := entropy }

end

/- ============ Sentry scheduler: src/App.tsx ============ -/

/-- The sentry-relevant application settings. -/
structure SentrySettings where
  enableProactiveSentry : Bool
  enableNativeNotifications : Bool
deriving DecidableEq, Repr

/-- A notification produced by the sentry tick. -/
structure SNote where
  id : String
  title : String
  message : String
  type : String
  actionPrompt : String
deriving DecidableEq, Repr

/-- The 30 minute snooze window in milliseconds. -/
def SNOOZE_DURATION : Nat := 30 * 60 * 1000

/-- The SCREENSHOTS notification the tick pushes. -/
def screenshotNote (count now : Nat) : SNote :=
  { id := "ss-" ++ toString now
    title := "Screenshot Accumulation"
    message := "I noticed you have " ++ toString count ++
      " screenshots. Would you like me to identify those you might want to discard?"
    type := "SCREENSHOTS"
    actionPrompt := "Barricade, I have too many screenshots (" ++ toString count ++
      "). Help me audit and delete the ones I do not need." }

/-- The STORAGE notification the tick pushes. -/
def storageNote (now : Nat) : SNote :=
  { id := "dl-" ++ toString now
    title := "Clutter Detected"
    message := "Your Downloads sector is becoming unorganized. Shall I perform a Smart Organize protocol?"
    type := "STORAGE"
    actionPrompt := "Barricade, my Downloads are a mess. Please perform a Smart Organize and tidy them up for me." }

/-- Keep the last n entries of a list, like Array.prototype.slice with a
negative index. -/
def takeLast (n : Nat) (l : List SNote) : List SNote :=
  l.drop (l.length - n)

/-- One tick of the proactive sentry interval: no-op when disabled,
otherwise threshold checks against the snooze map (absent entry reads as
epoch 0), pushing at most one SCREENSHOTS and one STORAGE note, then
truncating the outbox to the last 3 entries when anything was pushed.
Returns (newly generated notes, updated outbox). -/
def sentryTick (settings : SentrySettings) (snooze : String → Option Nat)
    (screenshotCount unorganizedDownloads now : Nat) (outbox : List SNote) :
    List SNote × List SNote :=
  if !settings.enableProactiveSentry then ([], outbox)
  else
    let ssSnoozed := (snooze "SCREENSHOTS").getD 0 + SNOOZE_DURATION > now
    let notes1 :=
      if screenshotCount > 15 && !ssSnoozed then [screenshotNote screenshotCount now] else []
    let dlSnoozed := (snooze "STORAGE").getD 0 + SNOOZE_DURATION > now
    let newNotes :=
      notes1 ++ (if unorganizedDownloads > 10 && !dlSnoozed then [storageNote now] else [])
    if newNotes.length > 0 then (newNotes, takeLast 3 (outbox ++ newNotes))
    else (newNotes, outbox)

/-- handleNotificationAction from App.tsx: dismissing a note, or executing
its action prompt, records now in the snooze map under the note type and
removes the note from the outbox. -/
def handleNotificationAction (outbox : List SNote) (snooze : String → Option Nat)
    (id : String) (snoozeFlag : Bool) (now : Nat) :
    List SNote × (String → Option Nat) :=
  let snooze' :=
    match outbox.find? (fun n => n.id = id) with
    | some note =>
      if snoozeFlag || note.actionPrompt ≠ "" then
        fun k => if k = note.type then some now else snooze k
      else snooze
    | none => snooze
  (outbox.filter fun n => n.id ≠ id, snooze')

/- ============ Claim theorems ============ -/

/-- Claim C3: for every list of classified files, summarize returns
integrityScore = clamp(100 − 25·maliciousCount − 5·suspiciousCount −
10·criticalPrivacyCount − 2·sensitivePrivacyCount, 0, 100), and status is
alert when maliciousCount > 0, otherwise warning when suspiciousCount > 0,
otherwise protected. -/
theorem C3_summary_score_and_status (files : List FileItem) :
    (getSecuritySummary files).integrityScore =
      max 0 (min 100
        (100 - 25 * ((getSecuritySummary files).maliciousCount : Int)
          - 5 * ((getSecuritySummary files).suspiciousCount : Int)
          - 10 * ((getSecuritySummary files).criticalPrivacyCount : Int)
          - 2 * ((getSecuritySummary files).sensitivePrivacyCount : Int))) ∧
    (getSecuritySummary files).status =
      (if (getSecuritySummary files).maliciousCount > 0 then "alert"
       else if (getSecuritySummary files).suspiciousCount > 0 then "warning"
       else "protected") := by
  constructor
  · simp only [getSecuritySummary]
    congr 2
    ring
  · rfl

/-- Claim C7: every file whose name matches at least one pattern in the
malicious-pattern set is classified malicious by analyzeThreatLevel,
regardless of its extension or path. -/
theorem C7_malicious_name_dominates (f : FileItem)
    (h : matchesMaliciousName f.name = true) :
    analyzeThreatLevel f = ThreatLevel.malicious := by
  simp [analyzeThreatLevel, h]

/-- Witness for C7 at a concrete file: a name containing trojan with a
benign extension in a benign location. -/
theorem C7_malicious_name_dominates_witness :
    matchesMaliciousName "Trojan-Invoice.pdf" = true ∧
    analyzeThreatLevel
      { id := "1", name := "Trojan-Invoice.pdf",
        path := "/home/user/Documents/Trojan-Invoice.pdf", size := 10,
        extension := ".pdf", type := "Document", lastModified := "",
        folder := "Documents", threatLevel := .safe, privacyLevel := .public,
        threatType := none, tags := [] } = ThreatLevel.malicious :=
  ⟨by decide, C7_malicious_name_dominates _ (by decide)⟩

/-- Claim C9: analyzeFiles maps the input list one-to-one in order and
changes only the four classification fields; id, name, path, size,
extension, type, lastModified and folder are unchanged. -/
theorem C9_analyzeFiles_preserves_identity (files : List FileItem) (i : Nat) :
    (analyzeFiles files).length = files.length ∧
    (analyzeFiles files)[i]?.map FileItem.id = files[i]?.map FileItem.id ∧
    (analyzeFiles files)[i]?.map FileItem.name = files[i]?.map FileItem.name ∧
    (analyzeFiles files)[i]?.map FileItem.path = files[i]?.map FileItem.path ∧
    (analyzeFiles files)[i]?.map FileItem.size = files[i]?.map FileItem.size ∧
    (analyzeFiles files)[i]?.map FileItem.extension = files[i]?.map FileItem.extension ∧
    (analyzeFiles files)[i]?.map FileItem.type = files[i]?.map FileItem.type ∧
    (analyzeFiles files)[i]?.map FileItem.lastModified = files[i]?.map FileItem.lastModified ∧
    (analyzeFiles files)[i]?.map FileItem.folder = files[i]?.map FileItem.folder := by
  cases h : files[i]? <;>
    simp [analyzeFiles, List.getElem?_map, h]

/-- Claim C8: a holding-directory listing surfaces an entry only when the
stored-content file and its paired metadata sidecar both exist; a content
file lacking its sidecar is never included, for quarantine and vault. -/
theorem C8_listing_requires_sidecar (dir : List String) (f : String) :
    (f ∈ listQuarantine dir → f ∈ dir ∧ (f ++ ".meta.json") ∈ dir) ∧
    (f ∈ dir → (f ++ ".meta.json") ∉ dir → f ∉ listQuarantine dir) ∧
    (f ∈ listVault dir → f ∈ dir ∧ (f ++ ".meta.json") ∈ dir) ∧
    (f ∈ dir → (f ++ ".meta.json") ∉ dir → f ∉ listVault dir) := by
  refine ⟨?_, ?_, ?_, ?_⟩ <;>
    simp only [listQuarantine, listVault, List.mem_filter, Bool.and_eq_true,
      List.contains, List.elem_iff] <;>
    tauto

/-- Witness for C8 on a concrete holding directory holding one properly
paired entry and one orphan content file. -/
theorem C8_listing_requires_sidecar_witness :
    ("9_a.txt.quarantined" ∈
        listQuarantine ["9_a.txt.quarantined", "9_a.txt.quarantined.meta.json",
          "8_b.txt.quarantined"] →
      "9_a.txt.quarantined" ∈
        (["9_a.txt.quarantined", "9_a.txt.quarantined.meta.json",
          "8_b.txt.quarantined"] : List String) ∧
      "9_a.txt.quarantined" ++ ".meta.json" ∈
        (["9_a.txt.quarantined", "9_a.txt.quarantined.meta.json",
          "8_b.txt.quarantined"] : List String)) ∧
    ("8_b.txt.quarantined" ∉
      listQuarantine ["9_a.txt.quarantined", "9_a.txt.quarantined.meta.json",
        "8_b.txt.quarantined"]) ∧
    ("7_c.pdf.vault" ∉ listVault ["7_c.pdf.vault"]) :=
  ⟨(C8_listing_requires_sidecar _ "9_a.txt.quarantined").1,
   (C8_listing_requires_sidecar
      ["9_a.txt.quarantined", "9_a.txt.quarantined.meta.json", "8_b.txt.quarantined"]
      "8_b.txt.quarantined").2.1 (by decide) (by decide),
   (C8_listing_requires_sidecar ["7_c.pdf.vault"] "7_c.pdf.vault").2.2.2
      (by decide) (by decide)⟩

/-- The entropy of the empty buffer is zero: every byte value has count
zero, so no histogram term contributes. -/
theorem scanEntropy_nil : scanEntropy [] = 0 := by
  simp [scanEntropy]

/-- Claim C10: on a zero-byte file the deep scan is total and returns
entropy 0, no findings and level safe, for every extension; the guarded
histogram loop contributes no term for the empty buffer. -/
theorem C10_deepScan_empty_buffer (ext : String) :
    (deepScan ext []).entropy = 0 ∧
    (deepScan ext []).findings = [] ∧
    (deepScan ext []).threatLevel = ThreatLevel.safe := by
  have h0 : scanEntropy [] = 0 := scanEntropy_nil
  have hocc : lastOccurrence [] [0xFF, 0xD9] = none := by decide
  have hocc2 : lastOccurrence [] [0x49, 0x45, 0x4E, 0x44] = none := by decide
  have h75 : ¬ ((0 : ℝ) > 7.5) := by norm_num
  simp only [deepScan, h0, hocc, hocc2, if_neg h75, ite_self]
  have hdec : utf8Decode [] = [] := by rw [utf8Decode.eq_def]
  rw [hdec]
  refine ⟨trivial, by decide, by decide⟩

/-- The suspicious-string loop can only raise the level: once malicious,
the scan stays malicious. -/
theorem stringScan_keeps_malicious (text : List Char) (ss : List String)
    (st : List String × ThreatLevel) (h : st.2 = ThreatLevel.malicious) :
    (ss.foldl (stringScanStep text) st).2 = ThreatLevel.malicious := by
  induction ss generalizing st with
  | nil => exact h
  | cons s ss ih =>
    apply ih
    unfold stringScanStep
    split <;> simp [h]

/-- The suspicious-string loop only appends findings: anything already in
the findings list survives the scan. -/
theorem stringScan_keeps_finding (text : List Char) (ss : List String)
    (st : List String × ThreatLevel) (m : String) (h : m ∈ st.1) :
    m ∈ (ss.foldl (stringScanStep text) st).1 := by
  induction ss generalizing st with
  | nil => exact h
  | cons s ss ih =>
    apply ih
    unfold stringScanStep
    split <;> simp [h]

/-- Claim C6: a .jpg or .jpeg buffer in which the last JPEG end marker is
followed by exactly 37 extra bytes beyond the marker itself yields a
finding naming 37 trailing bytes and the level malicious. -/
theorem C6_jpeg_trailing_bytes (ext : String) (buffer : List Nat) (i : Nat)
    (hext : ext = ".jpg" ∨ ext = ".jpeg")
    (hocc : lastOccurrence buffer [0xFF, 0xD9] = some i)
    (hlen : buffer.length = i + 39) :
    jpegTrailerMsg 37 ∈ (deepScan ext buffer).findings ∧
    (deepScan ext buffer).threatLevel = ThreatLevel.malicious := by
  have hpng : ext ≠ ".png" := by rcases hext with h | h <;> simp [h]
  have hlt : i + 2 < buffer.length := by omega
  have h37 : buffer.length - i - 2 = 37 := by omega
  simp only [deepScan, hocc, if_pos hext, if_neg hpng, if_pos hlt, h37]
  constructor
  · exact stringScan_keeps_finding _ _ _ _ (by simp)
  · exact stringScan_keeps_malicious _ _ _ rfl

/-- Witness for C6 at a concrete crafted JPEG: the end marker at index 0
followed by 37 zero bytes. -/
theorem C6_jpeg_trailing_bytes_witness :
    ((".jpg" : String) = ".jpg" ∨ (".jpg" : String) = ".jpeg") ∧
    lastOccurrence (0xFF :: 0xD9 :: List.replicate 37 0) [0xFF, 0xD9] = some 0 ∧
    (0xFF :: 0xD9 :: List.replicate 37 0).length = 0 + 39 ∧
    (jpegTrailerMsg 37 ∈ (deepScan ".jpg" (0xFF :: 0xD9 :: List.replicate 37 0)).findings ∧
     (deepScan ".jpg" (0xFF :: 0xD9 :: List.replicate 37 0)).threatLevel =
       ThreatLevel.malicious) :=
  ⟨Or.inl rfl, by decide, by decide,
   C6_jpeg_trailing_bytes ".jpg" _ 0 (Or.inl rfl) (by decide) (by decide)⟩

/-- A string is never equal to itself extended by the sidecar suffix. -/
theorem ne_self_append_meta (s : String) : s ≠ s ++ ".meta.json" := by
  intro h
  have hl := congrArg String.length h
  rw [String.length_append] at hl
  have h10 : (".meta.json" : String).length = 10 := rfl
  omega

/-- Round-trip property of place followed by restore for the quarantine
kind: place succeeds, the sidecar records the digest of the original
content, and restore puts the identical content back at the original
path, so its digest equals the recorded one. -/
def quarantineRoundTrip (hash : FileData → String) (fs : FS) (p reason : String)
    (ts : Nat) (d : FileData) : Prop :=
  let qp := quarantinedPathOf p ts
  let res := quarantineFs hash fs p reason ts
  res.1 = Except.ok qp ∧
  ∃ md : MetaRecord,
    res.2.1 (qp ++ ".meta.json") = some (FileData.meta md) ∧
    md.sha256 = hash d ∧
    (restoreFs res.2.1 qp).1 = Except.ok p ∧
    (restoreFs res.2.1 qp).2.1 p = some d ∧
    ((restoreFs res.2.1 qp).2.1 p).map hash = some md.sha256

/-- Round-trip property of place followed by restore for the vault kind. -/
def vaultRoundTrip (hash : FileData → String) (fs : FS) (p reason : String)
    (ts : Nat) (d : FileData) : Prop :=
  let vp := vaultedPathOf p ts
  let res := vaultFs hash fs p reason ts
  res.1 = Except.ok vp ∧
  ∃ md : MetaRecord,
    res.2.1 (vp ++ ".meta.json") = some (FileData.meta md) ∧
    md.sha256 = hash d ∧
    (restoreFs res.2.1 vp).1 = Except.ok p ∧
    (restoreFs res.2.1 vp).2.1 p = some d ∧
    ((restoreFs res.2.1 vp).2.1 p).map hash = some md.sha256

/-- Claim C1: for every file placed into holding via quarantine or vault,
restoring the stored entry yields a file at the original path whose
content digest equals the digest captured at place time. The two side
conditions rule out the degenerate case of a source path that collides
with the sidecar path the operation itself creates. -/
theorem C1_place_restore_roundtrip (hash : FileData → String) (fs : FS)
    (p reason : String) (ts : Nat) (d : FileData)
    (hp : fs p = some d)
    (hq : p ≠ quarantinedPathOf p ts ++ ".meta.json")
    (hv : p ≠ vaultedPathOf p ts ++ ".meta.json") :
    quarantineRoundTrip hash fs p reason ts d ∧ vaultRoundTrip hash fs p reason ts d := by
  have hq' := ne_self_append_meta (quarantinedPathOf p ts)
  have hv' := ne_self_append_meta (vaultedPathOf p ts)
  constructor
  · refine ⟨?_, ?_⟩
    · simp [quarantineRoundTrip, quarantineFs, hp]
    · refine ⟨MetaRecord.mk p (basename p) ts reason (hash d), ?_, rfl, ?_, ?_, ?_⟩ <;>
        simp [quarantineRoundTrip, quarantineFs, restoreFs, fsWrite, fsRemove, hp,
          hq, hq']
  · refine ⟨?_, ?_⟩
    · simp [vaultRoundTrip, vaultFs, hp]
    · refine ⟨MetaRecord.mk p (basename p) ts reason (hash d), ?_, rfl, ?_, ?_, ?_⟩ <;>
        simp [vaultRoundTrip, vaultFs, restoreFs, fsWrite, fsRemove, hp, hv, hv']

/-- Witness for C1 at a concrete filesystem holding one file. -/
theorem C1_place_restore_roundtrip_witness :
    ((fun q => if q = "/home/u/secret.txt" then some (FileData.bytes [1, 2, 3]) else none) :
        FS) "/home/u/secret.txt" = some (FileData.bytes [1, 2, 3]) ∧
    "/home/u/secret.txt" ≠ quarantinedPathOf "/home/u/secret.txt" 7 ++ ".meta.json" ∧
    "/home/u/secret.txt" ≠ vaultedPathOf "/home/u/secret.txt" 7 ++ ".meta.json" ∧
    (quarantineRoundTrip (fun _ => "digest")
        (fun q => if q = "/home/u/secret.txt" then some (FileData.bytes [1, 2, 3]) else none)
        "/home/u/secret.txt" "because" 7 (FileData.bytes [1, 2, 3]) ∧
      vaultRoundTrip (fun _ => "digest")
        (fun q => if q = "/home/u/secret.txt" then some (FileData.bytes [1, 2, 3]) else none)
        "/home/u/secret.txt" "because" 7 (FileData.bytes [1, 2, 3])) :=
  ⟨rfl, by decide, by decide,
   C1_place_restore_roundtrip (fun _ => "digest") _ "/home/u/secret.txt" "because" 7
     (FileData.bytes [1, 2, 3]) rfl (by decide) (by decide)⟩

/-- Claim C4: for both disposition handlers the digest is computed
strictly before the move and before the metadata write (the success trace
is exactly hash, rename, metadata write, in that order), and a digest
failure aborts with an error result, an unchanged filesystem, and no
rename or write event. -/
theorem C4_digest_before_move (hash : FileData → String) (fsA fsB : FS)
    (p reason : String) (ts : Nat) (d : FileData)
    (hA : fsA p = some d) (hB : fsB p = none) :
    (quarantineFs hash fsA p reason ts).2.2 =
      [FsEvent.hashEv p, FsEvent.renameEv p (quarantinedPathOf p ts),
       FsEvent.writeMetaEv (quarantinedPathOf p ts ++ ".meta.json")] ∧
    (vaultFs hash fsA p reason ts).2.2 =
      [FsEvent.hashEv p, FsEvent.renameEv p (vaultedPathOf p ts),
       FsEvent.writeMetaEv (vaultedPathOf p ts ++ ".meta.json")] ∧
    ((quarantineFs hash fsB p reason ts).1 = Except.error "hash failed" ∧
      (quarantineFs hash fsB p reason ts).2.1 = fsB ∧
      (quarantineFs hash fsB p reason ts).2.2 = [FsEvent.hashEv p]) ∧
    ((vaultFs hash fsB p reason ts).1 = Except.error "hash failed" ∧
      (vaultFs hash fsB p reason ts).2.1 = fsB ∧
      (vaultFs hash fsB p reason ts).2.2 = [FsEvent.hashEv p]) := by
  refine ⟨?_, ?_, ⟨?_, ?_, ?_⟩, ⟨?_, ?_, ?_⟩⟩ <;>
    simp [quarantineFs, vaultFs, hA, hB]

/-- Witness for C4 at concrete filesystems, one holding the file and one
missing it. -/
theorem C4_digest_before_move_witness :
    ((fun q => if q = "/d/report.pdf" then some (FileData.bytes [9]) else none) : FS)
        "/d/report.pdf" = some (FileData.bytes [9]) ∧
    ((fun _ => none) : FS) "/d/report.pdf" = none ∧
    ((quarantineFs (fun _ => "h")
        (fun q => if q = "/d/report.pdf" then some (FileData.bytes [9]) else none)
        "/d/report.pdf" "r" 3).2.2 =
      [FsEvent.hashEv "/d/report.pdf",
       FsEvent.renameEv "/d/report.pdf" (quarantinedPathOf "/d/report.pdf" 3),
       FsEvent.writeMetaEv (quarantinedPathOf "/d/report.pdf" 3 ++ ".meta.json")] ∧
     (vaultFs (fun _ => "h")
        (fun q => if q = "/d/report.pdf" then some (FileData.bytes [9]) else none)
        "/d/report.pdf" "r" 3).2.2 =
      [FsEvent.hashEv "/d/report.pdf",
       FsEvent.renameEv "/d/report.pdf" (vaultedPathOf "/d/report.pdf" 3),
       FsEvent.writeMetaEv (vaultedPathOf "/d/report.pdf" 3 ++ ".meta.json")] ∧
     ((quarantineFs (fun _ => "h") (fun _ => none) "/d/report.pdf" "r" 3).1 =
        Except.error "hash failed" ∧
      (quarantineFs (fun _ => "h") (fun _ => none) "/d/report.pdf" "r" 3).2.1 =
        (fun _ => none) ∧
      (quarantineFs (fun _ => "h") (fun _ => none) "/d/report.pdf" "r" 3).2.2 =
        [FsEvent.hashEv "/d/report.pdf"]) ∧
     ((vaultFs (fun _ => "h") (fun _ => none) "/d/report.pdf" "r" 3).1 =
        Except.error "hash failed" ∧
      (vaultFs (fun _ => "h") (fun _ => none) "/d/report.pdf" "r" 3).2.1 =
        (fun _ => none) ∧
      (vaultFs (fun _ => "h") (fun _ => none) "/d/report.pdf" "r" 3).2.2 =
        [FsEvent.hashEv "/d/report.pdf"])) :=
  ⟨rfl, rfl,
   C4_digest_before_move (fun _ => "h")
     (fun q => if q = "/d/report.pdf" then some (FileData.bytes [9]) else none)
     (fun _ => none) "/d/report.pdf" "r" 3 (FileData.bytes [9]) rfl rfl⟩

/-- Counterexample for C5 as stated: on a zero-byte file the shred
handler does not skip the overwrite loop; its trace contains three
zero-length overwrite passes before the unlink, so it differs from the
direct-unlink trace the claim describes. -/
theorem C5_zero_byte_counterexample :
    (shredFs (fun _ n => List.replicate n 0)
        (fun q => if q = "/tmp/empty.bin" then some (FileData.bytes []) else none)
        "/tmp/empty.bin").2.2 =
      [FsEvent.writeBytesEv "/tmp/empty.bin" [], FsEvent.writeBytesEv "/tmp/empty.bin" [],
       FsEvent.writeBytesEv "/tmp/empty.bin" [], FsEvent.unlinkEv "/tmp/empty.bin"] ∧
    (shredFs (fun _ n => List.replicate n 0)
        (fun q => if q = "/tmp/empty.bin" then some (FileData.bytes []) else none)
        "/tmp/empty.bin").2.2 ≠ [FsEvent.unlinkEv "/tmp/empty.bin"] := by
  constructor <;> decide

/-- Claim C5 as amended: for every file, shred performs exactly 3
overwrite passes, each writing a random buffer of exactly the file's
size over the file's content, and unlinks the file after the third pass;
a zero-byte file is not special-cased: the three passes still run,
each writing a zero-length buffer, before the unlink. -/
theorem C5_shred_three_passes (rng : Nat → Nat → List Nat) (fs : FS)
    (p : String) (content : List Nat)
    (hf : fs p = some (FileData.bytes content))
    (hrng : ∀ pass n, (rng pass n).length = n) :
    (shredFs rng fs p).1 = Except.ok () ∧
    (shredFs rng fs p).2.1 p = none ∧
    (shredFs rng fs p).2.2 =
      [FsEvent.writeBytesEv p (rng 0 content.length),
       FsEvent.writeBytesEv p (rng 1 content.length),
       FsEvent.writeBytesEv p (rng 2 content.length),
       FsEvent.unlinkEv p] ∧
    (∀ buf : List Nat, FsEvent.writeBytesEv p buf ∈ (shredFs rng fs p).2.2 →
      buf.length = content.length) := by
  have hrange : List.range 3 = [0, 1, 2] := by decide
  refine ⟨?_, ?_, ?_, ?_⟩
  · simp [shredFs, hf]
  · simp [shredFs, hf, fsRemove]
  · simp [shredFs, hf, hrange]
  · intro buf hmem
    simp only [shredFs, hf, hrange] at hmem
    simp only [List.foldl] at hmem
    simp at hmem
    rcases hmem with h | h | h <;> rw [h, hrng]

/-- Witness for C5 at a concrete two-byte file with a concrete random
source. -/
theorem C5_shred_three_passes_witness :
    ((fun q => if q = "/tmp/doc.txt" then some (FileData.bytes [5, 6]) else none) : FS)
        "/tmp/doc.txt" = some (FileData.bytes [5, 6]) ∧
    (∀ pass n, ((fun (_ : Nat) (n : Nat) => List.replicate n 1) pass n).length = n) ∧
    ((shredFs (fun _ n => List.replicate n 1)
        (fun q => if q = "/tmp/doc.txt" then some (FileData.bytes [5, 6]) else none)
        "/tmp/doc.txt").1 = Except.ok () ∧
     (shredFs (fun _ n => List.replicate n 1)
        (fun q => if q = "/tmp/doc.txt" then some (FileData.bytes [5, 6]) else none)
        "/tmp/doc.txt").2.1 "/tmp/doc.txt" = none ∧
     (shredFs (fun _ n => List.replicate n 1)
        (fun q => if q = "/tmp/doc.txt" then some (FileData.bytes [5, 6]) else none)
        "/tmp/doc.txt").2.2 =
      [FsEvent.writeBytesEv "/tmp/doc.txt" (List.replicate 2 1),
       FsEvent.writeBytesEv "/tmp/doc.txt" (List.replicate 2 1),
       FsEvent.writeBytesEv "/tmp/doc.txt" (List.replicate 2 1),
       FsEvent.unlinkEv "/tmp/doc.txt"] ∧
     (∀ buf : List Nat,
        FsEvent.writeBytesEv "/tmp/doc.txt" buf ∈
          (shredFs (fun _ n => List.replicate n 1)
            (fun q => if q = "/tmp/doc.txt" then some (FileData.bytes [5, 6]) else none)
            "/tmp/doc.txt").2.2 →
        buf.length = ([5, 6] : List Nat).length)) :=
  ⟨rfl, fun _ n => List.length_replicate n 1,
   C5_shred_three_passes (fun _ n => List.replicate n 1) _ "/tmp/doc.txt" [5, 6] rfl
     (fun _ n => List.length_replicate n 1)⟩

/-- Counterexample for C2 as stated: with 16 screenshots and an empty
snooze map, a first tick at minute 30 emits one SCREENSHOTS notification,
and a second tick one minute later, with no intervening dismissal or
action (so an unchanged snooze map), emits one again rather than none —
emitting a notification does not write to the snooze map. -/
theorem C2_second_tick_counterexample :
    ((sentryTick ⟨true, true⟩ (fun _ => none) 16 0 1800000 []).1.countP
        (fun n => n.type = "SCREENSHOTS") = 1) ∧
    ((sentryTick ⟨true, true⟩ (fun _ => none) 16 0 1860000
        (sentryTick ⟨true, true⟩ (fun _ => none) 16 0 1800000 []).2).1.countP
        (fun n => n.type = "SCREENSHOTS") = 1) := by
  constructor <;> decide

/-- Claim C2 as amended: a tick that observes 16 screenshot files when
the snooze map has no SCREENSHOTS entry (at any time at least one snooze
window past the epoch) emits exactly one SCREENSHOTS notification, and a
second tick with no intervening dismissal or action emits exactly one
SCREENSHOTS notification again: the snooze map is written only by a
dismissal or an executed action, never by emission itself. -/
theorem C2_second_tick_reemits (settings : SentrySettings)
    (snooze : String → Option Nat) (dl1 dl2 now1 now2 : Nat)
    (outbox1 outbox2 : List SNote)
    (hs : settings.enableProactiveSentry = true)
    (hsn : snooze "SCREENSHOTS" = none)
    (h1 : SNOOZE_DURATION ≤ now1) (h2 : SNOOZE_DURATION ≤ now2) :
    ((sentryTick settings snooze 16 dl1 now1 outbox1).1.countP
        (fun n => n.type = "SCREENSHOTS") = 1) ∧
    ((sentryTick settings snooze 16 dl2 now2 outbox2).1.countP
        (fun n => n.type = "SCREENSHOTS") = 1) := by
  have hss1 : ¬ ((snooze "SCREENSHOTS").getD 0 + SNOOZE_DURATION > now1) := by
    rw [hsn]; simpa using h1
  have hss2 : ¬ ((snooze "SCREENSHOTS").getD 0 + SNOOZE_DURATION > now2) := by
    rw [hsn]; simpa using h2
  have b0 : decide ((16 : Nat) > 15) = true := by decide
  have b1 : decide ((snooze "SCREENSHOTS").getD 0 + SNOOZE_DURATION > now1) = false :=
    decide_eq_false hss1
  have b2 : decide ((snooze "SCREENSHOTS").getD 0 + SNOOZE_DURATION > now2) = false :=
    decide_eq_false hss2
  constructor <;>
    · simp only [sentryTick, hs, Bool.not_true, Bool.false_eq_true, if_false,
        b0, b1, b2, Bool.not_false, Bool.and_self, Bool.and_true, if_true]
      split <;>
        · split <;>
            simp [screenshotNote, storageNote, List.countP_cons, List.countP_nil]

/-- Witness for C2 as amended, at the concrete counterexample scenario. -/
theorem C2_second_tick_reemits_witness :
    (SentrySettings.mk true true).enableProactiveSentry = true ∧
    ((fun _ => none) : String → Option Nat) "SCREENSHOTS" = none ∧
    SNOOZE_DURATION ≤ 1800000 ∧
    SNOOZE_DURATION ≤ 1860000 ∧
    (((sentryTick ⟨true, true⟩ (fun _ => none) 16 4 1800000 []).1.countP
        (fun n => n.type = "SCREENSHOTS") = 1) ∧
     ((sentryTick ⟨true, true⟩ (fun _ => none) 16 4 1860000 []).1.countP
        (fun n => n.type = "SCREENSHOTS") = 1)) :=
  ⟨rfl, rfl, by decide, by decide,
   C2_second_tick_reemits ⟨true, true⟩ (fun _ => none) 4 4 1800000 1860000 [] []
     rfl rfl (by decide) (by decide)⟩
